import Mathlib

/-!
Verification of the dns-check DNS monitoring engine.

The development shallowly embeds the TypeScript source of the repository:

* `DNSChecker` (src/dns-checker.ts): multi-resolver consensus, discrepancy
  detection and change detection against a key-value history store
  (`checkDomain`, `resolveDomainMultiple`, `resolveDomain`, `areIPsMatching`,
  `checkResolverDiscrepancy`, `getMostCommonResult`).
* `IPAnalyzer` (src/ip-analyzer.ts): private-IP short-circuit, reputation
  fallback over a static bad-prefix table, and the additive risk scorer
  (`analyzeIP`, `isPrivateIP`, `getReputation`, `checkKnownBadRanges`,
  `isIPInRange`, `assessRisk`).

JavaScript strings are embedded as Lean `String`; the default
`Array.prototype.sort()` comparison (code-unit lexicographic order) is
embedded as the lexicographic order on the underlying character list.
Asynchronous network calls are embedded as oracle inputs: every external
response a function could observe is a parameter, and functions that issue
external lookups additionally return the list of lookups they performed.
-/

/-! ## JavaScript string primitives -/

/-- The string order used by JavaScript's default `Array.prototype.sort()`:
lexicographic comparison of the character sequences.  (JS compares UTF-16
code units; on the record values handled by this program the two orders
agree character-wise.) -/
def jsLe (a b : String) : Prop := a.data ≤ b.data

instance : DecidableRel jsLe := fun a b => inferInstanceAs (Decidable (a.data ≤ b.data))

instance : IsTotal String jsLe :=
  ⟨fun a b => IsTotal.total (r := (· ≤ · : List Char → List Char → Prop)) a.data b.data⟩

instance : IsTrans String jsLe :=
  ⟨fun _ _ _ h1 h2 => le_trans (α := List Char) h1 h2⟩

instance : IsAntisymm String jsLe :=
  ⟨fun a b h1 h2 => by cases a; cases b; exact congrArg String.mk (le_antisymm h1 h2)⟩

/-- Embedding of `[...arr].sort()` on an array of strings: the sorted copy of
the list.  (Any comparison sort yields this unique sorted rearrangement, so a
concrete stable sort is a faithful model of the JS engine's sort.) -/
def jsSortStrings (l : List String) : List String := List.insertionSort jsLe l

theorem jsSortStrings_perm (l : List String) : (jsSortStrings l).Perm l :=
  List.perm_insertionSort jsLe l

theorem jsSortStrings_sorted (l : List String) : List.Sorted jsLe (jsSortStrings l) :=
  List.sorted_insertionSort jsLe l

/-- Two lists have the same sorted copy exactly when they are permutations of
each other (i.e. equal as multisets). -/
theorem jsSortStrings_eq_iff (l1 l2 : List String) :
    jsSortStrings l1 = jsSortStrings l2 ↔ l1.Perm l2 := by
  constructor
  · intro h
    have h2 := jsSortStrings_perm l2
    exact (jsSortStrings_perm l1).symm.trans (h ▸ h2 : (jsSortStrings l1).Perm l2)
  · intro h
    exact List.eq_of_perm_of_sorted
      ((jsSortStrings_perm l1).trans (h.trans (jsSortStrings_perm l2).symm))
      (jsSortStrings_sorted l1) (jsSortStrings_sorted l2)

/-- Helper for `jsSplit`: splits a character list at every occurrence of the
separator, keeping empty pieces, accumulating the current piece in reverse. -/
def charSplitAux (sep : Char) : List Char → List Char → List String
  | [], acc => [String.mk acc.reverse]
  | c :: rest, acc =>
      if c = sep then String.mk acc.reverse :: charSplitAux sep rest []
      else charSplitAux sep rest (c :: acc)

/-- Embedding of JavaScript `s.split(sep)` for a one-character separator:
splits at every occurrence, keeps empty pieces, and maps the empty string to
`[""]` — exactly the JS behaviour. -/
def jsSplit (s : String) (sep : Char) : List String := charSplitAux sep s.data []

/-- Embedding of JavaScript `Number(s)` as used on the octet substrings of a
dotted address: the empty string converts to `0`, a decimal digit string to
its value, and anything else to NaN (`none`); NaN fails every comparison made
by the callers below, which is what the matching arms on `none` encode. -/
def jsToNumber (s : String) : Option Nat :=
  if s.data = [] then some 0
  else if s.data.all (fun c => c.isDigit) then
    some (s.data.foldl (fun n c => n * 10 + (c.toNat - '0'.toNat)) 0)
  else none

/-- JS comparison `x === n` for a possibly-NaN number. -/
def jsEqNat (x : Option Nat) (n : Nat) : Bool :=
  match x with
  | some v => v == n
  | none => false

/-- JS comparison `x >= n` for a possibly-NaN number (false on NaN). -/
def jsGeNat (x : Option Nat) (n : Nat) : Bool :=
  match x with
  | some v => n ≤ v
  | none => false

/-- JS comparison `x <= n` for a possibly-NaN number (false on NaN). -/
def jsLeNat (x : Option Nat) (n : Nat) : Bool :=
  match x with
  | some v => v ≤ n
  | none => false

/-- JS truthiness of an optional string (`undefined` and `""` are falsy). -/
def truthyStr : Option String → Bool
  | none => false
  | some s => !(s == "")

/-- JS truthiness of an optional boolean (`undefined` and `false` are falsy). -/
def truthyBool : Option Bool → Bool
  | some b => b
  | none => false

/-! ## DNSChecker (src/dns-checker.ts) -/

namespace DNSChecker

/-- A resolver-name-to-value-list mapping (`{ [resolver: string]: string[] }`);
the association list order is the object's key insertion order, which is the
order the mapping is iterated in (`Object.keys` / `Object.values`). -/
abbrev ResolverResults := List (String × List String)

/-- Record stored in the KV history store (interface `DNSRecord`).  The JSON
round-trip through the store is embedded as the identity on this structure. -/
structure DNSRecord where
  domain : String
  ips : List String
  timestamp : Nat
  recordType : String
deriving DecidableEq, Repr

/-- Monitored-domain entry (interface `DomainConfig`). -/
structure DomainConfig where
  name : Option String := none
  domain : String
  recordType : Option String := none
  category : Option String := none
deriving DecidableEq, Repr

/-- Result of one domain check (interface `DNSCheckResult`); fields that the
TypeScript code leaves `undefined` on one of the two return paths are
embedded as `Option`. -/
structure DNSCheckResult where
  domain : String
  timestamp : Nat
  hasChanged : Bool
  previousIPs : List String
  currentIPs : List String
  isFirstCheck : Bool
  error : Option String := none
  resolverDiscrepancy : Option Bool := none
  resolverResults : Option ResolverResults := none
deriving DecidableEq, Repr

/-- The KV history store, keyed by `dns:<domain>:<recordType>`. -/
abbrev KV := List (String × DNSRecord)

/-- `kvStore.get(key)` (deserialized). -/
def kvGet (kv : KV) (key : String) : Option DNSRecord :=
  (kv.find? (fun p => p.1 == key)).map (fun p => p.2)

/-- `kvStore.put(key, value)`: later writes shadow earlier ones. -/
def kvPut (kv : KV) (key : String) (v : DNSRecord) : KV := (key, v) :: kv

/-- `areIPsMatching`: equal length and element-wise equal sorted copies.
(The source's index-wise `every` over two equal-length sorted arrays is list
equality of the sorted copies.) -/
def areIPsMatching (ips1 ips2 : List String) : Bool :=
  ips1.length == ips2.length && jsSortStrings ips1 == jsSortStrings ips2

/-- The comparison loop of `checkResolverDiscrepancy`: compares each adjacent
pair `validResults[i]`, `validResults[i+1]` and reports a mismatch. -/
def adjacentMismatch : List (List String) → Bool
  | a :: b :: rest => !areIPsMatching a b || adjacentMismatch (b :: rest)
  | _ => false

/-- `checkResolverDiscrepancy`: false with at most one resolver or at most one
non-empty answer list, otherwise an adjacent-pairwise comparison of the
non-empty lists. -/
def checkResolverDiscrepancy (resolverResults : ResolverResults) : Bool :=
  let resolvers := resolverResults.map Prod.fst
  if resolvers.length ≤ 1 then false
  else
    let validResults := (resolverResults.map Prod.snd).filter (fun ips => ips.length > 0)
    if validResults.length ≤ 1 then false
    else adjacentMismatch validResults

/-- The grouping key of `getMostCommonResult`: `[...ips].sort().join(',')`. -/
def sortKey (ips : List String) : String :=
  String.intercalate "," (jsSortStrings ips)

/-- One entry of the source's `resultCounts` map: key, count, and the first
value list inserted under the key. -/
abbrev CountEntry := String × Nat × List String

/-- `resultCounts.get(key)` / `set`: increment the entry holding `key` if
present (a JS `Map` updates in place, keeping insertion order and the
originally stored `ips`), else append a fresh entry at the end. -/
def bump : List CountEntry → String → List String → List CountEntry
  | [], k, ips => [(k, 1, ips)]
  | (k', c, v) :: rest, k, ips =>
      if k' == k then (k', c + 1, v) :: rest
      else (k', c, v) :: bump rest k ips

/-- The counting loop of `getMostCommonResult` over the non-empty lists. -/
def buildCounts (results : List (List String)) : List CountEntry :=
  results.foldl (fun m ips => bump m (sortKey ips) ips) []

/-- The maximum scan of `getMostCommonResult`: `maxCount`/`mostCommon` are
updated only on a strictly larger count, so the first maximal entry (in map
insertion order) wins. -/
def scanMax : List CountEntry → Nat → List String → List String
  | [], _, best => best
  | (_, c, ips) :: rest, maxCount, best =>
      if c > maxCount then scanMax rest c ips else scanMax rest maxCount best

/-- `getMostCommonResult`: consensus selection over the non-empty lists. -/
def getMostCommonResult (resolverResults : ResolverResults) : List String :=
  let results := (resolverResults.map Prod.snd).filter (fun ips => ips.length > 0)
  if results.length = 0 then []
  else if results.length = 1 then results.headD []
  else scanMax (buildCounts results) 0 (results.headD [])

/-- `resolveDomainMultiple`: each provider's query either produced a value
list (`Except.ok`) or failed (`Except.error`); a failure is caught and stored
as an empty list for that provider only. -/
def resolveDomainMultiple (outcomes : List (String × Except String (List String))) :
    ResolverResults :=
  outcomes.map (fun p =>
    (p.1, match p.2 with
          | Except.ok ips => ips
          | Except.error _ => []))

/-- One entry of the DoH JSON `Answer` array. -/
structure DNSAnswer where
  type : Nat
  data : String
deriving DecidableEq, Repr

/-- The observable parts of one DoH HTTP response: transport success flag,
HTTP status, protocol `Status` field, and the optional `Answer` array. -/
structure DoHResponse where
  ok : Bool
  status : Nat
  dnsStatus : Nat
  answer : Option (List DNSAnswer)
deriving DecidableEq, Repr

/-- The answer-filtering loop of `resolveDomain`: address records (types 1
and 28) are always pushed; type 5 only for a CNAME query; type 2 only for an
NS query; everything else is skipped. -/
def extractAnswers (recordType : String) (answers : List DNSAnswer) : List String :=
  answers.foldl (fun ips a =>
    if a.type == 1 || a.type == 28 then ips ++ [a.data]
    else if a.type == 5 && recordType == "CNAME" then ips ++ [a.data]
    else if a.type == 2 && recordType == "NS" then ips ++ [a.data]
    else ips) []

/-- `resolveDomain`, given the response its single fetch produced: a
non-success transport response or a non-zero protocol status raises
(`Except.error`); otherwise the `Answer` entries are filtered. -/
def resolveDomain (recordType : String) (resp : DoHResponse) :
    Except String (List String) :=
  if !resp.ok then Except.error ("DNS query failed: " ++ toString resp.status)
  else if !(resp.dnsStatus == 0) then
    Except.error ("DNS query returned status: " ++ toString resp.dnsStatus)
  else
    Except.ok (match resp.answer with
               | some answers => extractAnswers recordType answers
               | none => [])

/-- `checkDomain`, given the (already settled) resolver results, the current
timestamp and the KV store; returns the check result and the updated store.
The store embedding cannot raise, so the function always takes the source's
`try` path: the `catch` path is reachable only from a store or JSON failure,
not from resolver failures (those are absorbed by `resolveDomainMultiple`). -/
def checkDomain (config : DomainConfig) (resolverResults : ResolverResults)
    (timestamp : Nat) (kv : KV) : DNSCheckResult × KV :=
  let recordType := config.recordType.getD "A"
  let resolverDiscrepancy := checkResolverDiscrepancy resolverResults
  let currentIPs := getMostCommonResult resolverResults
  let kvKey := "dns:" ++ config.domain ++ ":" ++ recordType
  let previousRecord := kvGet kv kvKey
  let hasChanged :=
    match previousRecord with
    | some r => !areIPsMatching currentIPs r.ips
    | none => false
  let newRecord : DNSRecord :=
    { domain := config.domain, ips := currentIPs, timestamp := timestamp,
      recordType := recordType }
  let kv' := kvPut kv kvKey newRecord
  ({ domain := config.domain
     timestamp := timestamp
     hasChanged := hasChanged
     previousIPs := (previousRecord.map (fun r => r.ips)).getD []
     currentIPs := currentIPs
     isFirstCheck := previousRecord.isNone
     error := none
     resolverDiscrepancy := some resolverDiscrepancy
     resolverResults := some resolverResults }, kv')

end DNSChecker

namespace DNSChecker

/-! ### Specification-side description of consensus selection

`getMostCommonResultSpec` renders the specification's words: group the
non-empty lists by their sorted-and-joined representation, count group
membership, and return the first list (in resolver iteration order) whose
group attains the maximal count. -/

/-- Number of non-empty result lists in the same group as key `k`. -/
def countKey (results : List (List String)) (k : String) : Nat :=
  results.countP (fun l => sortKey l == k)

/-- The highest group-membership count among the groups. -/
def maxGroupCount (results : List (List String)) : Nat :=
  (results.map (fun l => countKey results (sortKey l))).foldr max 0

/-- Consensus selection as the specification words it: the first non-empty
list (in iteration order) whose group has maximal membership count; `[]`
when every resolver list is empty. -/
def getMostCommonResultSpec (rr : ResolverResults) : List String :=
  let results := (rr.map Prod.snd).filter (fun ips => ips.length > 0)
  match results.find? (fun l => countKey results (sortKey l) == maxGroupCount results) with
  | some l => l
  | none => []

/-! ### Supporting notions for the consensus proof -/

/-- Distinct keys in first-occurrence order (the iteration order of the
source's `Map`). -/
def dedupFirst : List String → List String
  | [] => []
  | k :: rest => k :: (dedupFirst rest).filter (fun x => !(x == k))

/-- The distinct group keys of the result lists, in first-occurrence order. -/
def keysOf (results : List (List String)) : List String :=
  dedupFirst (results.map sortKey)

/-- The first result list belonging to group `k` (the list a JS `Map` stores
with the key, since only the first insertion stores `ips`). -/
def firstWith (results : List (List String)) (k : String) : List String :=
  (results.find? (fun l => sortKey l == k)).getD []

/-- The `resultCounts` entry that group `k` ends up with. -/
def entryOf (results : List (List String)) (k : String) : CountEntry :=
  (k, countKey results k, firstWith results k)

/-- Maximum of a list of naturals (0 for the empty list). -/
def listMax (l : List Nat) : Nat := l.foldr max 0

theorem listMax_le_iff {l : List Nat} {n : Nat} :
    listMax l ≤ n ↔ ∀ x ∈ l, x ≤ n := by
  induction l with
  | nil => simp [listMax]
  | cons a t ih => simp [listMax, Nat.max_le] at *; exact fun _ => ih

theorem le_listMax_of_mem {l : List Nat} {x : Nat} (h : x ∈ l) : x ≤ listMax l :=
  (listMax_le_iff.mp (Nat.le_refl _)) x h

theorem listMax_congr_mem {l1 l2 : List Nat} (h : ∀ x, x ∈ l1 ↔ x ∈ l2) :
    listMax l1 = listMax l2 :=
  Nat.le_antisymm
    (listMax_le_iff.mpr fun x hx => le_listMax_of_mem ((h x).mp hx))
    (listMax_le_iff.mpr fun x hx => le_listMax_of_mem ((h x).mpr hx))

theorem listMax_cons (a : Nat) (t : List Nat) : listMax (a :: t) = max a (listMax t) := rfl

theorem listMax_mem {l : List Nat} (h : l ≠ []) : listMax l ∈ l := by
  induction l with
  | nil => simp at h
  | cons a t ih =>
    by_cases ht : t = []
    · subst ht; simp [listMax]
    · rcases Nat.le_total a (listMax t) with hle | hle
      · rw [listMax_cons, Nat.max_eq_right hle]
        exact List.mem_cons_of_mem _ (ih ht)
      · rw [listMax_cons, Nat.max_eq_left hle]
        exact List.mem_cons_self a t

theorem mem_dedupFirst {ks : List String} {x : String} :
    x ∈ dedupFirst ks ↔ x ∈ ks := by
  induction ks with
  | nil => simp [dedupFirst]
  | cons k rest ih =>
    simp only [dedupFirst, List.mem_cons, List.mem_filter]
    constructor
    · rintro (h | ⟨h, _⟩)
      · exact Or.inl h
      · exact Or.inr (ih.mp h)
    · rintro (h | h)
      · exact Or.inl h
      · by_cases hk : x = k
        · exact Or.inl hk
        · exact Or.inr ⟨ih.mpr h, by simp [hk]⟩

theorem find?_filter_ne (P : String → Bool) (k : String) (hk : P k = false)
    (l : List String) :
    (l.filter (fun x => !(x == k))).find? P = l.find? P := by
  induction l with
  | nil => rfl
  | cons a rest ih =>
    by_cases ha : a = k
    · rw [show List.filter (fun x => !(x == k)) (a :: rest)
            = List.filter (fun x => !(x == k)) rest by simp [ha],
          ih, List.find?_cons_of_neg _ (by simp [ha, hk])]
    · rw [show List.filter (fun x => !(x == k)) (a :: rest)
            = a :: List.filter (fun x => !(x == k)) rest by simp [ha]]
      cases hP : P a
      · rw [List.find?_cons_of_neg _ (by simp [hP]), List.find?_cons_of_neg _ (by simp [hP]), ih]
      · rw [List.find?_cons_of_pos _ hP, List.find?_cons_of_pos _ hP]

theorem find?_dedupFirst (P : String → Bool) (ks : List String) :
    (dedupFirst ks).find? P = ks.find? P := by
  induction ks with
  | nil => rfl
  | cons k rest ih =>
    simp only [dedupFirst]
    cases hP : P k
    · rw [List.find?_cons_of_neg _ (by simp [hP]), List.find?_cons_of_neg _ (by simp [hP]),
        find?_filter_ne P k hP, ih]
    · rw [List.find?_cons_of_pos _ hP, List.find?_cons_of_pos _ hP]

theorem find?_key_of_find? {α β : Type} [BEq β] [LawfulBEq β] {p : α → Bool}
    {f : α → β} {l : List α} {x : α} (h : l.find? p = some x)
    (hp : ∀ y, f y = f x → p y = true) :
    l.find? (fun y => f y == f x) = some x := by
  induction l with
  | nil => simp at h
  | cons a rest ih =>
    rw [List.find?_cons] at h ⊢
    cases hpa : p a
    · rw [hpa] at h
      have hne : (f a == f x) = false := by
        cases hfa : f a == f x
        · rfl
        · exact absurd (hp a (by simpa using hfa)) (by simp [hpa])
      rw [hne]; exact ih h
    · rw [hpa] at h
      simp only [Option.some.injEq] at h
      subst h
      simp


/-- The keys of the entries of a count map. -/
def keyList (m : List CountEntry) : List String := m.map (fun e => e.1)

theorem bump_of_not_mem {m : List CountEntry} {k : String} (ips : List String)
    (h : k ∉ keyList m) :
    bump m k ips = m ++ [(k, 1, ips)] := by
  induction m with
  | nil => rfl
  | cons e rest ih =>
    obtain ⟨k', c, v⟩ := e
    simp only [keyList, List.map_cons, List.mem_cons, not_or] at h
    simp only [bump, List.cons_append]
    rw [if_neg (by simp [Ne.symm h.1]), ih (by simpa [keyList] using h.2)]

theorem bump_of_mem {m : List CountEntry} {k : String} (ips : List String)
    (hnd : (keyList m).Nodup) (h : k ∈ keyList m) :
    bump m k ips = m.map (fun e => if e.1 == k then (e.1, e.2.1 + 1, e.2.2) else e) := by
  induction m with
  | nil => simp [keyList] at h
  | cons e rest ih =>
    obtain ⟨k', c, v⟩ := e
    simp only [keyList, List.map_cons, List.nodup_cons] at hnd
    by_cases hk : k' = k
    · subst hk
      simp only [bump, List.map_cons]
      rw [if_pos (by simp), if_pos (by simp)]
      congr 1
      symm
      have hid : ∀ e ∈ rest,
          (if e.1 == k' then ((e.1 : String), e.2.1 + 1, e.2.2) else e) = e := by
        intro e he
        have : e.1 ≠ k' := fun hek => hnd.1 (hek ▸ List.mem_map_of_mem (fun e => e.1) he)
        simp [this]
      exact (List.map_congr_left hid).trans (List.map_id' rest)
    · have hrest : k ∈ keyList rest := by
        simp only [keyList, List.map_cons, List.mem_cons] at h
        exact h.resolve_left (fun hh => hk hh.symm)
      simp only [bump, List.map_cons]
      rw [if_neg (by simp [hk]), if_neg (by simp [hk])]
      exact congrArg (List.cons _) (ih hnd.2 hrest)

theorem countKey_cons (l : List String) (L : List (List String)) (x : String) :
    countKey (l :: L) x = countKey L x + (if sortKey l == x then 1 else 0) := by
  simp [countKey, List.countP_cons]

theorem firstWith_cons_of_ne {l : List String} {L : List (List String)} {x : String}
    (h : sortKey l ≠ x) : firstWith (l :: L) x = firstWith L x := by
  simp [firstWith, List.find?_cons, h]

theorem firstWith_cons_of_eq {l : List String} {L : List (List String)} {x : String}
    (h : sortKey l = x) : firstWith (l :: L) x = l := by
  simp [firstWith, List.find?_cons, h]

theorem entryOf_cons_of_ne {l : List String} {L : List (List String)} {x : String}
    (h : sortKey l ≠ x) : entryOf (l :: L) x = entryOf L x := by
  simp [entryOf, countKey_cons, h, firstWith_cons_of_ne h]

theorem keysOf_cons (l : List String) (L : List (List String)) :
    keysOf (l :: L) = sortKey l :: (keysOf L).filter (fun x => !(x == sortKey l)) := rfl

theorem foldl_bump_closed :
    ∀ (results : List (List String)) (m : List CountEntry), (keyList m).Nodup →
    results.foldl (fun m ips => bump m (sortKey ips) ips) m =
      m.map (fun e => (e.1, e.2.1 + countKey results e.1, e.2.2))
      ++ ((keysOf results).filter (fun x => !(decide (x ∈ keyList m)))).map
          (entryOf results) := by
  intro results
  induction results with
  | nil =>
    intro m _
    simp [countKey, keysOf, dedupFirst]
  | cons ips rest ih =>
    intro m hnd
    rw [List.foldl_cons]
    by_cases hc : sortKey ips ∈ keyList m
    · -- the group key is already present: its entry is incremented in place
      rw [bump_of_mem ips hnd hc]
      have hkeys : keyList (m.map (fun e =>
            if e.1 == sortKey ips then (e.1, e.2.1 + 1, e.2.2) else e)) = keyList m := by
        simp only [keyList, List.map_map]
        refine List.map_congr_left ?_
        intro e _
        by_cases h : e.1 = sortKey ips <;> simp [h]
      rw [ih _ (by rw [hkeys]; exact hnd), hkeys]
      congr 1
      · -- pre-existing entries: an in-place increment plus the tail counts
        rw [List.map_map]
        refine List.map_congr_left ?_
        intro e _
        by_cases h : e.1 = sortKey ips
        · simp only [Function.comp_apply, h, beq_self_eq_true, if_true, countKey_cons,
            Prod.mk.injEq, true_and]
          exact ⟨by omega, trivial⟩
        · simp only [Function.comp_apply, beq_iff_eq, h, if_false, countKey_cons,
            Prod.mk.injEq, true_and]
          have : sortKey ips ≠ e.1 := fun hh => h hh.symm
          simp only [beq_iff_eq, this, if_false]
          exact ⟨by omega, trivial⟩
      · -- fresh-key entries: the head key is not fresh, the tail is unchanged
        have h2 : (keysOf (ips :: rest)).filter (fun x => !(decide (x ∈ keyList m)))
            = (keysOf rest).filter (fun x => !(decide (x ∈ keyList m))) := by
          rw [keysOf_cons, List.filter_cons_of_neg (by simp [hc]), List.filter_filter]
          refine List.filter_congr ?_
          intro x _
          by_cases hx : x = sortKey ips
          · subst hx; simp [hc]
          · simp [hx]
        rw [h2]
        refine (List.map_congr_left ?_).symm
        intro x hx
        have hmem : x ∉ keyList m := by simpa using (List.mem_filter.mp hx).2
        have : sortKey ips ≠ x := fun hh => hmem (hh ▸ hc)
        exact entryOf_cons_of_ne this
    · -- fresh group key: a new entry is appended at the end
      rw [bump_of_not_mem ips hc]
      have hnd' : (keyList (m ++ [(sortKey ips, 1, ips)])).Nodup := by
        simp only [keyList, List.map_append, List.nodup_append]
        exact ⟨hnd, by simp, by simpa [keyList] using hc⟩
      rw [ih _ hnd']
      have hmapfst : m.map (fun e => (e.1, e.2.1 + countKey rest e.1, e.2.2))
          = m.map (fun e => (e.1, e.2.1 + countKey (ips :: rest) e.1, e.2.2)) := by
        refine List.map_congr_left ?_
        intro e he
        have : sortKey ips ≠ e.1 :=
          fun hh => hc (hh ▸ List.mem_map_of_mem (fun e => e.1) he)
        simp [countKey_cons, this]
      have hhead : entryOf (ips :: rest) (sortKey ips)
          = (sortKey ips, 1 + countKey rest (sortKey ips), ips) := by
        simp only [entryOf, countKey_cons, beq_self_eq_true, if_true,
          firstWith_cons_of_eq rfl, Prod.mk.injEq, true_and]
        exact ⟨by omega, trivial⟩
      have htailkeys : (keysOf (ips :: rest)).filter (fun x => !(decide (x ∈ keyList m)))
          = sortKey ips ::
            (keysOf rest).filter (fun x => !(decide (x ∈ keyList (m ++ [(sortKey ips, 1, ips)])))) := by
        rw [keysOf_cons, List.filter_cons_of_pos (by simp [hc]), List.filter_filter]
        congr 1
        refine List.filter_congr ?_
        intro x _
        by_cases hx : x = sortKey ips
        · subst hx; simp [keyList]
        · have hb : (x == sortKey ips) = false := beq_eq_false_iff_ne.mpr hx
          simp [keyList, List.map_append, hx, hb]
      rw [htailkeys, List.map_cons, hhead, List.map_append, hmapfst, List.append_assoc]
      simp only [List.map_cons, List.map_nil, List.singleton_append]
      refine congrArg₂ (· ++ ·) rfl (congrArg₂ List.cons rfl ?_)
      refine (List.map_congr_left ?_).symm
      intro x hx
      have hxnot : x ∉ keyList (m ++ [(sortKey ips, 1, ips)]) := by
        simpa using (List.mem_filter.mp hx).2
      have hxk : x ≠ sortKey ips := by
        intro hh
        exact hxnot (by simp [keyList, List.map_append, hh])
      exact entryOf_cons_of_ne (Ne.symm hxk)

theorem scanMax_spec :
    ∀ (entries : List CountEntry) (m : Nat) (best : List String),
    scanMax entries m best =
      if m < listMax (entries.map (fun e => e.2.1)) then
        ((entries.find? (fun e => e.2.1 == listMax (entries.map (fun e => e.2.1)))).map
          (fun e => e.2.2)).getD best
      else best := by
  intro entries
  induction entries with
  | nil =>
    intro m best
    simp [scanMax, listMax]
  | cons e rest ih =>
    obtain ⟨k, c, v⟩ := e
    intro m best
    simp only [scanMax, List.map_cons]
    rw [listMax_cons]
    by_cases h1 : c > m
    · rw [if_pos h1, ih]
      by_cases h2 : c < listMax (rest.map (fun e => e.2.1))
      · have hM : max c (listMax (rest.map (fun e => e.2.1)))
            = listMax (rest.map (fun e => e.2.1)) := Nat.max_eq_right (Nat.le_of_lt h2)
        rw [hM, if_pos h2, if_pos (by omega)]
        have hhead : (((k, c, v) : CountEntry).2.1
            == listMax (rest.map (fun e => e.2.1))) = false := by
          simp only []
          exact beq_eq_false_iff_ne.mpr (by omega)
        rw [List.find?_cons_of_neg _ (by simp [hhead])]
        have hne : rest.map (fun e => e.2.1) ≠ [] := by
          intro hh
          rw [hh] at h2
          simp [listMax] at h2
        obtain ⟨x, hx, hxx⟩ := List.mem_map.mp (listMax_mem hne)
        have hsome : (rest.find? (fun e =>
            e.2.1 == listMax (rest.map (fun e => e.2.1)))).isSome :=
          List.find?_isSome.mpr ⟨x, hx, by simp [hxx]⟩
        obtain ⟨r, hr⟩ := Option.isSome_iff_exists.mp hsome
        rw [hr]
        rfl
      · have hM : max c (listMax (rest.map (fun e => e.2.1))) = c :=
          Nat.max_eq_left (Nat.le_of_not_lt h2)
        rw [hM, if_neg h2, if_pos h1]
        rw [List.find?_cons_of_pos _ (by simp)]
        rfl
    · rw [if_neg h1, ih]
      by_cases h2 : m < listMax (rest.map (fun e => e.2.1))
      · have hM : max c (listMax (rest.map (fun e => e.2.1)))
            = listMax (rest.map (fun e => e.2.1)) := Nat.max_eq_right (by omega)
        rw [hM, if_pos h2, if_pos h2]
        have hhead : (((k, c, v) : CountEntry).2.1
            == listMax (rest.map (fun e => e.2.1))) = false := by
          simp only []
          exact beq_eq_false_iff_ne.mpr (by omega)
        rw [List.find?_cons_of_neg _ (by simp [hhead])]
      · rw [if_neg h2, if_neg (by omega)]

theorem buildCounts_closed (results : List (List String)) :
    buildCounts results = (keysOf results).map (entryOf results) := by
  have h := foldl_bump_closed results [] (by simp [keyList])
  simpa [buildCounts, keyList] using h

theorem maxGroupCount_eq_listMax (results : List (List String)) :
    maxGroupCount results
      = listMax ((keysOf results).map (fun k => countKey results k)) := by
  refine listMax_congr_mem ?_
  intro x
  constructor
  · intro hx
    obtain ⟨l, hl, hlx⟩ := List.mem_map.mp hx
    refine List.mem_map.mpr ⟨sortKey l, ?_, hlx⟩
    exact mem_dedupFirst.mpr (List.mem_map_of_mem sortKey hl)
  · intro hx
    obtain ⟨k, hk, hkx⟩ := List.mem_map.mp hx
    obtain ⟨l, hl, hlk⟩ := List.mem_map.mp (mem_dedupFirst.mp hk)
    exact List.mem_map.mpr ⟨l, hl, by rw [hlk]; exact hkx⟩

theorem countKey_pos_of_mem {results : List (List String)} {l : List String}
    (h : l ∈ results) : 0 < countKey results (sortKey l) :=
  List.countP_pos_iff.mpr ⟨l, h, by simp⟩

theorem maxGroupCount_pos {results : List (List String)} (h : results ≠ []) :
    0 < maxGroupCount results := by
  obtain ⟨l, L, rfl⟩ := List.exists_cons_of_ne_nil h
  have h1 : countKey (l :: L) (sortKey l) ∈
      (l :: L).map (fun x => countKey (l :: L) (sortKey x)) :=
    List.mem_map.mpr ⟨l, List.mem_cons_self l L, rfl⟩
  have h2 := le_listMax_of_mem h1
  have h3 := countKey_pos_of_mem (List.mem_cons_self l L)
  exact Nat.lt_of_lt_of_le h3 h2

theorem scanMax_buildCounts_eq_spec (results : List (List String))
    (hne : results ≠ []) (b : List String) :
    scanMax (buildCounts results) 0 b
      = match results.find?
            (fun l => countKey results (sortKey l) == maxGroupCount results) with
        | some l => l
        | none => [] := by
  have hcounts : ((keysOf results).map (entryOf results)).map (fun e => e.2.1)
      = (keysOf results).map (fun k => countKey results k) := by
    rw [List.map_map]; rfl
  have hMeq : listMax (((keysOf results).map (entryOf results)).map (fun e => e.2.1))
      = maxGroupCount results := by
    rw [hcounts, maxGroupCount_eq_listMax]
  rw [buildCounts_closed, scanMax_spec, hMeq,
    if_pos (maxGroupCount_pos hne)]
  rw [List.find?_map]
  have hpred : ((fun e : CountEntry => e.2.1 == maxGroupCount results) ∘ entryOf results)
      = fun k => countKey results k == maxGroupCount results := rfl
  rw [hpred]
  rw [show keysOf results = dedupFirst (results.map sortKey) from rfl,
    find?_dedupFirst, List.find?_map]
  have hpred2 : ((fun k => countKey results k == maxGroupCount results) ∘ sortKey)
      = fun l => countKey results (sortKey l) == maxGroupCount results := rfl
  rw [hpred2]
  -- the maximum is attained, so the search succeeds
  have hexists : ∃ l ∈ results,
      (countKey results (sortKey l) == maxGroupCount results) = true := by
    have hmapne : results.map (fun l => countKey results (sortKey l)) ≠ [] := by
      simpa using hne
    obtain ⟨l, hl, hll⟩ := List.mem_map.mp (listMax_mem hmapne)
    exact ⟨l, hl, by simp [maxGroupCount, show listMax (results.map (fun l => countKey results (sortKey l))) = maxGroupCount results from rfl, hll]⟩
  obtain ⟨r, hr⟩ := Option.isSome_iff_exists.mp (List.find?_isSome.mpr hexists)
  rw [hr]
  have hprop := List.find?_some hr
  have hfw : firstWith results (sortKey r) = r := by
    have hfind := find?_key_of_find? (f := sortKey) hr
      (fun y hy => by
        have hcc : countKey results (sortKey y) = countKey results (sortKey r) := by
          rw [hy]
        show (countKey results (sortKey y) == maxGroupCount results) = true
        rw [hcc]
        exact hprop)
    simp [firstWith, hfind]
  simp only [Option.map_some, Option.map_map, Option.getD_some]
  exact hfw

/-- Consensus selection agrees with the specification's description of it. -/
theorem getMostCommonResult_eq_spec (rr : ResolverResults) :
    getMostCommonResult rr = getMostCommonResultSpec rr := by
  unfold getMostCommonResult getMostCommonResultSpec
  by_cases h0 : ((rr.map Prod.snd).filter (fun ips => ips.length > 0)).length = 0
  · rw [if_pos h0]
    rw [List.length_eq_zero.mp h0]
    rfl
  · rw [if_neg h0]
    have hne : (rr.map Prod.snd).filter (fun ips => ips.length > 0) ≠ [] := by
      intro hh
      exact h0 (by rw [hh]; rfl)
    by_cases h1 : ((rr.map Prod.snd).filter (fun ips => ips.length > 0)).length = 1
    · rw [if_pos h1]
      obtain ⟨l, hl⟩ := List.length_eq_one.mp h1
      rw [hl]
      have h := scanMax_buildCounts_eq_spec [l] (by simp) []
      have h2 : scanMax (buildCounts [l]) 0 [] = l := rfl
      exact (h.symm.trans h2).symm
    · rw [if_neg h1]
      exact scanMax_buildCounts_eq_spec _ hne _

/-! ### Discrepancy detection -/

/-- `areIPsMatching` is exactly multiset equality of the two value lists. -/
theorem areIPsMatching_iff_perm (l1 l2 : List String) :
    areIPsMatching l1 l2 = true ↔ l1.Perm l2 := by
  constructor
  · intro h
    simp only [areIPsMatching, Bool.and_eq_true, beq_iff_eq] at h
    exact (jsSortStrings_eq_iff l1 l2).mp h.2
  · intro h
    simp only [areIPsMatching, Bool.and_eq_true, beq_iff_eq]
    exact ⟨by simp [h.length_eq], (jsSortStrings_eq_iff l1 l2).mpr h⟩

instance : IsTrans (List String) (·.Perm ·) := ⟨fun _ _ _ => List.Perm.trans⟩

theorem adjacentMismatch_eq_false_iff (l : List (List String)) :
    adjacentMismatch l = false ↔ l.Chain' (·.Perm ·) := by
  induction l with
  | nil => simp [adjacentMismatch]
  | cons a tail ih =>
    cases tail with
    | nil => simp [adjacentMismatch]
    | cons b rest =>
      rw [List.chain'_cons, ← ih]
      simp [adjacentMismatch, Bool.or_eq_false_iff, areIPsMatching_iff_perm]

theorem pairwise_perm_of_forall_mem {l : List (List String)}
    (h : ∀ x ∈ l, ∀ y ∈ l, x.Perm y) : l.Pairwise (·.Perm ·) := by
  induction l with
  | nil => exact List.Pairwise.nil
  | cons a tail ih =>
    rw [List.pairwise_cons]
    exact ⟨fun b hb => h a (List.mem_cons_self a tail) b (List.mem_cons_of_mem a hb),
      ih (fun x hx y hy => h x (List.mem_cons_of_mem a hx) y (List.mem_cons_of_mem a hy))⟩

/-- The adjacent-pair scan is equivalent to a full pairwise comparison,
because multiset equality is an equivalence relation. -/
theorem adjacentMismatch_eq_true_iff (l : List (List String)) :
    adjacentMismatch l = true ↔ ∃ x ∈ l, ∃ y ∈ l, ¬ x.Perm y := by
  constructor
  · intro h
    by_contra hno
    push_neg at hno
    have hfalse : adjacentMismatch l = false := by
      rw [adjacentMismatch_eq_false_iff, List.chain'_iff_pairwise]
      exact pairwise_perm_of_forall_mem hno
    rw [h] at hfalse
    exact Bool.noConfusion hfalse
  · rintro ⟨x, hx, y, hy, hxy⟩
    by_contra hne
    have hfalse : adjacentMismatch l = false := by
      cases hb : adjacentMismatch l
      · rfl
      · exact absurd hb hne
    rw [adjacentMismatch_eq_false_iff, List.chain'_iff_pairwise] at hfalse
    have hsymm : Symmetric (fun a b : List String => a.Perm b) :=
      fun _ _ hp => hp.symm
    have hall := List.Pairwise.forall hsymm hfalse
    by_cases heq : x = y
    · exact hxy (heq ▸ List.Perm.refl x)
    · exact hxy (hall hx hy heq)

/-- Permutation-respecting relation on resolver-result mappings: same
resolver names, and each resolver's list replaced by a permutation. -/
def PermEquiv (rr rr' : ResolverResults) : Prop :=
  List.Forall₂ (fun p q => p.1 = q.1 ∧ p.2.Perm q.2) rr rr'

theorem filter_forall₂_perm {rr rr' : ResolverResults} (h : PermEquiv rr rr') :
    List.Forall₂ (·.Perm ·)
      ((rr.map Prod.snd).filter (fun ips => ips.length > 0))
      ((rr'.map Prod.snd).filter (fun ips => ips.length > 0)) := by
  induction h with
  | nil => exact List.Forall₂.nil
  | cons hpq hrest ih =>
    rename_i p q l1 l2
    simp only [List.map_cons, List.filter_cons]
    have hlen : p.2.length = q.2.length := hpq.2.length_eq
    by_cases hp : p.2.length > 0
    · rw [if_pos (by simpa using hp), if_pos (by simpa [← hlen] using hp)]
      exact List.Forall₂.cons hpq.2 ih
    · rw [if_neg (by simpa using hp), if_neg (by simpa [← hlen] using hp)]
      exact ih

theorem adjacentMismatch_respects_perm {l l' : List (List String)}
    (h : List.Forall₂ (·.Perm ·) l l') :
    adjacentMismatch l = adjacentMismatch l' := by
  induction h with
  | nil => rfl
  | cons hab htail ih =>
    rename_i a a' tail tail'
    cases htail with
    | nil => rfl
    | cons hbb hrest =>
      rename_i b b' rest rest'
      simp only [adjacentMismatch]
      have h1 : areIPsMatching a b = areIPsMatching a' b' := by
        have hiff : areIPsMatching a b = true ↔ areIPsMatching a' b' = true := by
          rw [areIPsMatching_iff_perm, areIPsMatching_iff_perm]
          exact ⟨fun hp => hab.symm.trans (hp.trans hbb),
            fun hp => hab.trans (hp.trans hbb.symm)⟩
        exact Bool.eq_iff_iff.mpr hiff
      rw [h1, ih]

theorem checkResolverDiscrepancy_respects_perm {rr rr' : ResolverResults}
    (h : PermEquiv rr rr') :
    checkResolverDiscrepancy rr = checkResolverDiscrepancy rr' := by
  have hlen : rr.length = rr'.length := List.Forall₂.length_eq h
  have hvalid := filter_forall₂_perm h
  have hvlen := List.Forall₂.length_eq hvalid
  simp only [checkResolverDiscrepancy, List.length_map, hlen, hvlen]
  by_cases h1 : rr'.length ≤ 1
  · rw [if_pos h1, if_pos h1]
  · rw [if_neg h1, if_neg h1]
    by_cases h2 : ((rr'.map Prod.snd).filter (fun ips => ips.length > 0)).length ≤ 1
    · rw [if_pos h2, if_pos h2]
    · rw [if_neg h2, if_neg h2]
      exact adjacentMismatch_respects_perm hvalid

/-! ### Change-detection helpers -/

theorem kvGet_kvPut (kv : KV) (key : String) (v : DNSRecord) :
    kvGet (kvPut kv key v) key = some v := by
  simp [kvGet, kvPut, List.find?_cons]

/-- With every resolver list empty, consensus selection yields `[]`. -/
theorem getMostCommonResult_all_empty {rr : ResolverResults}
    (h : ∀ p ∈ rr, p.2 = []) : getMostCommonResult rr = [] := by
  have hfil : (rr.map Prod.snd).filter (fun ips => ips.length > 0) = [] := by
    rw [List.filter_eq_nil_iff]
    intro l hl
    obtain ⟨p, hp, hpl⟩ := List.mem_map.mp hl
    simp [← hpl, h p hp]
  unfold getMostCommonResult
  rw [hfil]
  rfl

/-- The kernel of `checkDomain`'s change test: with a stored record present,
`hasChanged` is the negated multiset comparison. -/
theorem checkDomain_hasChanged_of_previous {config : DomainConfig}
    {rr : ResolverResults} {timestamp : Nat} {kv : KV} {r : DNSRecord}
    (h : kvGet kv ("dns:" ++ config.domain ++ ":" ++ config.recordType.getD "A") = some r) :
    (checkDomain config rr timestamp kv).1.hasChanged
      = !areIPsMatching (getMostCommonResult rr) r.ips := by
  simp only [checkDomain, h]

end DNSChecker

/-! ## IPAnalyzer (src/ip-analyzer.ts) -/

namespace IPAnalyzer

/-- `IPAnalysis.geolocation` (interface field, all members optional). -/
structure Geolocation where
  country : Option String := none
  city : Option String := none
  region : Option String := none
  lat : Option Int := none
  lon : Option Int := none
deriving DecidableEq, Repr

/-- `IPAnalysis.asn`. -/
structure ASNInfo where
  number : Option Int := none
  name : Option String := none
  organization : Option String := none
deriving DecidableEq, Repr

/-- `IPAnalysis.reputation`. -/
structure Reputation where
  isClean : Bool
  isMalicious : Option Bool := none
  threatScore : Option Int := none
  categories : Option (List String) := none
  source : Option String := none
deriving DecidableEq, Repr

/-- Interface `IPAnalysis`. -/
structure IPAnalysis where
  ip : String
  geolocation : Option Geolocation := none
  asn : Option ASNInfo := none
  reputation : Option Reputation := none
  reverseDns : Option String := none
deriving DecidableEq, Repr

/-- `isPrivateIP`: dotted-quad parse via `Number`, then the four reserved
range tests (10/8, 172.16/12, 192.168/16, 127/8). -/
def isPrivateIP (ip : String) : Bool :=
  let parts := (jsSplit ip '.').map jsToNumber
  if !(parts.length == 4) then false
  else
    jsEqNat (parts.getD 0 none) 10
    || (jsEqNat (parts.getD 0 none) 172
        && jsGeNat (parts.getD 1 none) 16 && jsLeNat (parts.getD 1 none) 31)
    || (jsEqNat (parts.getD 0 none) 192 && jsEqNat (parts.getD 1 none) 168)
    || jsEqNat (parts.getD 0 none) 127

/-- `isIPInRange`: the source's deliberately simplified check comparing only
the first two octets of the address and of the range's base. -/
def isIPInRange (ip cidr : String) : Bool :=
  let range := (jsSplit cidr '/').headD ""
  let rangeParts := String.intercalate "." ((jsSplit range '.').take 2)
  let ipParts := String.intercalate "." ((jsSplit ip '.').take 2)
  rangeParts == ipParts

/-- The static table of known-bad prefixes in `checkKnownBadRanges`. -/
def suspiciousASNs : List (String × String) :=
  [("45.142.120.0/22", "Known bulletproof hosting"),
   ("185.220.100.0/22", "TOR exit nodes"),
   ("104.244.72.0/21", "Common phishing host")]

/-- `checkKnownBadRanges`: the categories of every listed range the address
falls in (per `isIPInRange`). -/
def checkKnownBadRanges (ip : String) : List String :=
  (suspiciousASNs.filter (fun asn => isIPInRange ip asn.1)).map (fun asn => asn.2)

/-- The observable fields of a Cloudflare Radar response body
(`data.result?.threat_score`, `data.result?.categories`). -/
structure RadarData where
  threatScore : Option Int := none
  categories : Option (List String) := none
deriving DecidableEq, Repr

/-- JS `x > 50` where `x` may be `undefined` (false on `undefined`). -/
def jsGtInt (x : Option Int) (n : Int) : Bool :=
  match x with
  | some v => n < v
  | none => false

/-- `getReputation`, given the outcome of the primary (Cloudflare Radar)
fetch: `none` stands for a thrown fetch or a non-ok response, in which case
the static known-bad-prefix fallback is consulted, and failing that the
default clean reputation is returned. -/
def getReputation (primary : Option RadarData) (ip : String) : Reputation :=
  match primary with
  | some d =>
      let isMalicious := jsGtInt d.threatScore 50
      { isClean := !isMalicious, isMalicious := some isMalicious,
        threatScore := d.threatScore,
        categories := some (d.categories.getD []),
        source := some "cloudflare-radar" }
  | none =>
      let badRanges := checkKnownBadRanges ip
      if badRanges.length > 0 then
        { isClean := false, isMalicious := some true,
          categories := some badRanges, source := some "local-checks" }
      else
        { isClean := true, isMalicious := some false, source := some "default" }

/-- One external lookup issued by `analyzeIP`. -/
inductive Lookup where
  | geolocation (ip : String)
  | reputation (ip : String)
  | reverseDns (ip : String)
deriving DecidableEq, Repr

/-- The `options` argument of `analyzeIP`. -/
structure AnalyzeOptions where
  skipGeo : Bool := false
  skipReputation : Bool := false
  skipReverseDns : Bool := false
deriving DecidableEq, Repr

/-- The external world as `analyzeIP` can observe it: the geolocation result
(`none` = both providers failed or returned nothing usable), the primary
reputation response (`none` = fetch failed or non-ok), and the reverse-DNS
result (`none` = failure or no PTR record). -/
structure ExternalServices where
  geo : String → Option (Geolocation × ASNInfo)
  radar : String → Option RadarData
  reverseDns : String → Option String

/-- `analyzeIP`, returning the analysis together with the list of external
lookups it issued.  A private/loopback address short-circuits before any
lookup; otherwise each of the three sub-lookups runs unless skipped, and a
sub-lookup failure only leaves its field unset. -/
def analyzeIP (ip : String) (options : AnalyzeOptions) (svc : ExternalServices) :
    IPAnalysis × List Lookup :=
  if isPrivateIP ip then
    ({ ip := ip,
       geolocation := some { country := some "Private IP", city := some "Local Network" },
       reputation := some { isClean := true } }, [])
  else
    let geoStep : Option Geolocation × Option ASNInfo × List Lookup :=
      if !options.skipGeo then
        match svc.geo ip with
        | some g => (some g.1, some g.2, [Lookup.geolocation ip])
        | none => (none, none, [Lookup.geolocation ip])
      else (none, none, [])
    let repStep : Option Reputation × List Lookup :=
      if !options.skipReputation then
        (some (getReputation (svc.radar ip) ip), [Lookup.reputation ip])
      else (none, [])
    let dnsStep : Option String × List Lookup :=
      if !options.skipReverseDns then (svc.reverseDns ip, [Lookup.reverseDns ip])
      else (none, [])
    ({ ip := ip, geolocation := geoStep.1, asn := geoStep.2.1,
       reputation := repStep.1, reverseDns := dnsStep.1 },
     geoStep.2.2 ++ repStep.2 ++ dnsStep.2)

end IPAnalyzer

namespace IPAnalyzer

/-- Risk level enumeration. -/
inductive RiskLevel where
  | low
  | medium
  | high
  | critical
deriving DecidableEq, Repr

/-- The return shape of `assessRisk`. -/
structure RiskAssessment where
  level : RiskLevel
  factors : List String
  recommendation : String
deriving DecidableEq, Repr

/-- The malicious-IP factor line. -/
def malLine (n : Nat) : String := "🚨 " ++ toString n ++ " IP(s) flagged as malicious"

/-- The geographic-change factor line. -/
def geoLine (cs : List String) : String :=
  "📍 Geographic change: moved to " ++ String.intercalate ", " cs

/-- The high-risk-country factor line. -/
def riskyLine (cs : List String) : String :=
  "⚠️ Moved to high-risk countries: " ++ String.intercalate ", " cs

/-- The hosting-provider-change factor line. -/
def asnLine (as : List String) : String :=
  "🏢 Hosting provider changed to: " ++ String.intercalate ", " as

/-- The missing-reverse-DNS factor line. -/
def dnsLine : String := "🔍 No reverse DNS configured (suspicious)"

/-- The neutral factor pushed when nothing else fired. -/
def minorLine : String := "Minor infrastructure change detected"

/-- Recommendation for the critical level. -/
def criticalRecommendation : String :=
  "🚨 IMMEDIATE ACTION REQUIRED: This appears to be a DNS hijacking. Verify immediately and consider blocking access."

/-- Recommendation for the high level. -/
def highRecommendation : String :=
  "⚠️ HIGH RISK: Significant suspicious indicators detected. Investigate immediately."

/-- Recommendation for the medium level. -/
def mediumRecommendation : String :=
  "⚡ MEDIUM RISK: Some concerning changes detected. Verify if these changes were authorized."

/-- Recommendation for the low level. -/
def lowRecommendation : String :=
  "✅ LOW RISK: Changes appear to be routine. Still worth verifying if expected."

/-- The fixed high-risk country list. -/
def highRiskCountries : List String := ["Russia", "China", "North Korea", "Iran"]

/-- `a.reputation?.isMalicious` as a JS truth value. -/
def maliciousFlag (a : IPAnalysis) : Bool :=
  match a.reputation with
  | some r => truthyBool r.isMalicious
  | none => false

/-- `list.map(a => a.geolocation?.country).filter(Boolean)`. -/
def countriesOf (l : List IPAnalysis) : List String :=
  (l.filterMap (fun a => a.geolocation.bind (fun g => g.country))).filter
    (fun s => !(s == ""))

/-- `list.map(a => a.asn?.organization).filter(Boolean)`. -/
def orgsOf (l : List IPAnalysis) : List String :=
  (l.filterMap (fun a => a.asn.bind (fun g => g.organization))).filter
    (fun s => !(s == ""))

/-- `const maliciousIPs = current.filter(a => a.reputation?.isMalicious)`. -/
def maliciousIPs (current : List IPAnalysis) : List IPAnalysis :=
  current.filter maliciousFlag

/-- `const newCountries = [...currCountries].filter(c => !prevCountries.has(c))`:
spreading a `Set` built from a list is its first-occurrence deduplication. -/
def newCountries (previous current : List IPAnalysis) : List String :=
  (DNSChecker.dedupFirst (countriesOf current)).filter
    (fun c => !(countriesOf previous).contains c)

/-- `const riskyCountries = newCountries.filter(c => highRiskCountries.includes(c))`. -/
def riskyCountries (previous current : List IPAnalysis) : List String :=
  (newCountries previous current).filter (fun c => highRiskCountries.contains c)

/-- `const newASNs = [...currASNs].filter(a => !prevASNs.has(a))`. -/
def newASNs (previous current : List IPAnalysis) : List String :=
  (DNSChecker.dedupFirst (orgsOf current)).filter
    (fun a => !(orgsOf previous).contains a)

/-- `missingReverseDNS.length === current.length && current.length > 0`. -/
def allMissingReverseDns (current : List IPAnalysis) : Bool :=
  (current.filter (fun a => !truthyStr a.reverseDns)).length == current.length
  && current.length > 0

/-- The accumulated `riskScore` of `assessRisk` (the sequential `+=` updates
sum to this). -/
def riskScore (previous current : List IPAnalysis) : Nat :=
  (if (maliciousIPs current).length > 0 then 50 * (maliciousIPs current).length else 0)
  + (if (newCountries previous current).length > 0 then
       20 + (if (riskyCountries previous current).length > 0 then 30 else 0)
     else 0)
  + (if (newASNs previous current).length > 0 then 15 else 0)
  + (if allMissingReverseDns current then 25 else 0)

/-- The accumulated `factors` array of `assessRisk`, in push order. -/
def riskFactors (previous current : List IPAnalysis) : List String :=
  (if (maliciousIPs current).length > 0 then [malLine (maliciousIPs current).length] else [])
  ++ (if (newCountries previous current).length > 0 then
        [geoLine (newCountries previous current)]
        ++ (if (riskyCountries previous current).length > 0 then
              [riskyLine (riskyCountries previous current)]
            else [])
      else [])
  ++ (if (newASNs previous current).length > 0 then [asnLine (newASNs previous current)] else [])
  ++ (if allMissingReverseDns current then [dnsLine] else [])

/-- `assessRisk`: the additive scoring model; thresholds pick the level and
its fixed recommendation, and a neutral factor is substituted when nothing
fired. -/
def assessRisk (previous current : List IPAnalysis) : RiskAssessment :=
  let score := riskScore previous current
  let factors := riskFactors previous current
  let lr : RiskLevel × String :=
    if score ≥ 80 then (RiskLevel.critical, criticalRecommendation)
    else if score ≥ 50 then (RiskLevel.high, highRecommendation)
    else if score ≥ 25 then (RiskLevel.medium, mediumRecommendation)
    else (RiskLevel.low, lowRecommendation)
  let finalFactors := if factors.length == 0 then [minorLine] else factors
  { level := lr.1, factors := finalFactors, recommendation := lr.2 }

end IPAnalyzer

namespace DNSChecker

/-- The combined keep-condition of the `resolveDomain` answer loop. -/
def keepAnswer (recordType : String) (a : DNSAnswer) : Bool :=
  a.type == 1 || a.type == 28
  || (a.type == 5 && recordType == "CNAME")
  || (a.type == 2 && recordType == "NS")

theorem extractAnswers_step (recordType : String) (acc : List String) (a : DNSAnswer) :
    (if a.type == 1 || a.type == 28 then acc ++ [a.data]
     else if a.type == 5 && recordType == "CNAME" then acc ++ [a.data]
     else if a.type == 2 && recordType == "NS" then acc ++ [a.data]
     else acc)
      = acc ++ (if keepAnswer recordType a then [a.data] else []) := by
  by_cases h1 : (a.type == 1 || a.type == 28) = true
  · simp [keepAnswer, h1]
  · by_cases h2 : (a.type == 5 && recordType == "CNAME") = true
    · simp [keepAnswer, h1, h2]
    · by_cases h3 : (a.type == 2 && recordType == "NS") = true
      · simp [keepAnswer, h1, h2, h3]
      · simp [keepAnswer, h1, h2, h3]

theorem extractAnswers_eq_filter (recordType : String) (answers : List DNSAnswer) :
    extractAnswers recordType answers
      = (answers.filter (keepAnswer recordType)).map (fun a => a.data) := by
  suffices h : ∀ acc, answers.foldl (fun ips a =>
      if a.type == 1 || a.type == 28 then ips ++ [a.data]
      else if a.type == 5 && recordType == "CNAME" then ips ++ [a.data]
      else if a.type == 2 && recordType == "NS" then ips ++ [a.data]
      else ips) acc
      = acc ++ (answers.filter (keepAnswer recordType)).map (fun a => a.data) by
    exact h []
  induction answers with
  | nil => intro acc; simp
  | cons a rest ih =>
    intro acc
    rw [List.foldl_cons, extractAnswers_step, ih, List.filter_cons]
    by_cases hk : keepAnswer recordType a = true
    · rw [if_pos hk, if_pos hk]
      simp
    · rw [if_neg hk, if_neg hk]
      simp

end DNSChecker

namespace IPAnalyzer

/-- Dotted-quad IPv4 value, following the specification notion of an address
(four octets, each at most 255); the source itself never computes this. -/
def ipv4ToNat (s : String) : Option Nat :=
  match (jsSplit s '.').map jsToNumber with
  | [some a, some b, some c, some d] =>
      if a ≤ 255 && b ≤ 255 && c ≤ 255 && d ≤ 255 then
        some (((a * 256 + b) * 256 + c) * 256 + d)
      else none
  | _ => none

/-- Proper CIDR-block membership, following the specification's words for
what a listed range like `185.220.100.0/22` denotes; used only to state that
a flagged address can lie outside the listed block. -/
def cidrContainsSpec (cidr ip : String) : Bool :=
  match jsSplit cidr '/' with
  | [base, lenStr] =>
      match ipv4ToNat base, ipv4ToNat ip, jsToNumber lenStr with
      | some b, some a, some len =>
          if len ≤ 32 then (b / 2 ^ (32 - len)) == (a / 2 ^ (32 - len)) else false
      | _, _, _ => false
  | _ => false

/-- Whether a factor line is the malicious-IP line (they are the only factor
lines opening with the siren character). -/
def startsWithSiren (s : String) : Bool := s.data.head? == some '🚨'

theorem head_data_append (s t : String) (c : Char) (h : s.data.head? = some c) :
    (s ++ t).data.head? = some c := by
  rw [String.data_append]
  cases hs : s.data with
  | nil => rw [hs] at h; simp at h
  | cons x xs =>
    rw [hs] at h
    simp only [List.head?_cons, Option.some.injEq] at h
    simp [h]

theorem startsWithSiren_malLine (n : Nat) : startsWithSiren (malLine n) = true := by
  have h1 : ("🚨 " : String).data.head? = some '🚨' := by decide
  unfold startsWithSiren malLine
  rw [head_data_append _ _ _ (head_data_append _ _ _ h1)]
  decide

theorem startsWithSiren_geoLine (cs : List String) :
    startsWithSiren (geoLine cs) = false := by
  have h1 : ("📍 Geographic change: moved to " : String).data.head? = some '📍' := by
    decide
  unfold startsWithSiren geoLine
  rw [head_data_append _ _ _ h1]
  decide

theorem startsWithSiren_riskyLine (cs : List String) :
    startsWithSiren (riskyLine cs) = false := by
  have h1 : ("⚠️ Moved to high-risk countries: " : String).data.head? = some '⚠' := by
    decide
  unfold startsWithSiren riskyLine
  rw [head_data_append _ _ _ h1]
  decide

theorem startsWithSiren_asnLine (as : List String) :
    startsWithSiren (asnLine as) = false := by
  have h1 : ("🏢 Hosting provider changed to: " : String).data.head? = some '🏢' := by
    decide
  unfold startsWithSiren asnLine
  rw [head_data_append _ _ _ h1]
  decide

theorem startsWithSiren_dnsLine : startsWithSiren dnsLine = false := by decide

end IPAnalyzer

namespace DNSChecker

/-- The history-store key `dns:<domain>:<recordType>` built by `checkDomain`. -/
def kvKeyOf (config : DomainConfig) : String :=
  "dns:" ++ config.domain ++ ":" ++ config.recordType.getD "A"

end DNSChecker

/-! ## The claims -/

/-- C4: for every `(domain, recordType)` key with no stored history record, a
successful `checkDomain` returns `isFirstCheck = true` and
`hasChanged = false`, regardless of which consensus values were observed. -/
theorem c4_first_check_baseline (config : DNSChecker.DomainConfig)
    (rr : DNSChecker.ResolverResults) (ts : Nat) (kv : DNSChecker.KV)
    (h : DNSChecker.kvGet kv (DNSChecker.kvKeyOf config) = none) :
    (DNSChecker.checkDomain config rr ts kv).1.isFirstCheck = true
    ∧ (DNSChecker.checkDomain config rr ts kv).1.hasChanged = false := by
  rw [DNSChecker.kvKeyOf] at h
  simp [DNSChecker.checkDomain, h]

/-- Witness for C4 at a concrete first check. -/
theorem c4_first_check_baseline_witness :
    (DNSChecker.checkDomain { domain := "example.com" }
        [("Cloudflare", ["1.2.3.4"])] 5 []).1.isFirstCheck = true
    ∧ (DNSChecker.checkDomain { domain := "example.com" }
        [("Cloudflare", ["1.2.3.4"])] 5 []).1.hasChanged = false :=
  c4_first_check_baseline { domain := "example.com" } [("Cloudflare", ["1.2.3.4"])] 5 []
    (by decide)

/-- C5: with a stored history record, a successful `checkDomain` reports
`hasChanged` exactly when the consensus values differ from the stored values
as multisets, and it overwrites the stored record with the new consensus
values and the current timestamp whether or not a change was detected. -/
theorem c5_tracked_change_detection (config : DNSChecker.DomainConfig)
    (rr : DNSChecker.ResolverResults) (ts : Nat) (kv : DNSChecker.KV)
    (r : DNSChecker.DNSRecord)
    (h : DNSChecker.kvGet kv (DNSChecker.kvKeyOf config) = some r) :
    ((DNSChecker.checkDomain config rr ts kv).1.hasChanged = true
      ↔ (DNSChecker.getMostCommonResult rr : Multiset String) ≠ (r.ips : Multiset String))
    ∧ DNSChecker.kvGet (DNSChecker.checkDomain config rr ts kv).2 (DNSChecker.kvKeyOf config)
        = some { domain := config.domain, ips := DNSChecker.getMostCommonResult rr,
                 timestamp := ts, recordType := config.recordType.getD "A" } := by
  rw [DNSChecker.kvKeyOf] at h
  constructor
  · rw [DNSChecker.checkDomain_hasChanged_of_previous h]
    rw [Bool.not_eq_true']
    constructor
    · intro hm hperm
      rw [(DNSChecker.areIPsMatching_iff_perm _ _).mpr (Multiset.coe_eq_coe.mp hperm)] at hm
      exact Bool.noConfusion hm
    · intro hne
      cases hb : DNSChecker.areIPsMatching (DNSChecker.getMostCommonResult rr) r.ips
      · rfl
      · exact absurd (Multiset.coe_eq_coe.mpr
          ((DNSChecker.areIPsMatching_iff_perm _ _).mp hb)) hne
  · simp [DNSChecker.checkDomain, DNSChecker.kvKeyOf, h, DNSChecker.kvGet_kvPut]

/-- Witness for C5: a changed record is detected and the store is rewritten. -/
theorem c5_tracked_change_detection_witness :
    ((DNSChecker.checkDomain { domain := "example.com", recordType := some "A" }
        [("Cloudflare", ["192.0.2.1"])] 222
        [("dns:example.com:A",
          { domain := "example.com", ips := ["93.184.216.34"], timestamp := 111,
            recordType := "A" })]).1.hasChanged = true
      ↔ (DNSChecker.getMostCommonResult [("Cloudflare", ["192.0.2.1"])] : Multiset String)
          ≠ ((["93.184.216.34"] : List String) : Multiset String))
    ∧ DNSChecker.kvGet (DNSChecker.checkDomain
          { domain := "example.com", recordType := some "A" }
          [("Cloudflare", ["192.0.2.1"])] 222
          [("dns:example.com:A",
            { domain := "example.com", ips := ["93.184.216.34"], timestamp := 111,
              recordType := "A" })]).2
        (DNSChecker.kvKeyOf { domain := "example.com", recordType := some "A" })
        = some { domain := "example.com",
                 ips := DNSChecker.getMostCommonResult [("Cloudflare", ["192.0.2.1"])],
                 timestamp := 222, recordType := "A" } :=
  c5_tracked_change_detection
    { domain := "example.com", recordType := some "A" }
    [("Cloudflare", ["192.0.2.1"])] 222
    [("dns:example.com:A",
      { domain := "example.com", ips := ["93.184.216.34"], timestamp := 111,
        recordType := "A" })]
    { domain := "example.com", ips := ["93.184.216.34"], timestamp := 111,
      recordType := "A" }
    (by decide)

/-- C1 (counterexample): with every resolver list empty and a good stored
history record, `checkDomain` leaves `error` unset (the all-resolver failure
does not reach the `catch` path) and it does overwrite the stored record with
an all-empty one — the claimed error field and skipped write do not happen. -/
theorem c1_all_resolver_failure_counterexample :
    (DNSChecker.checkDomain { domain := "example.com", recordType := some "A" }
        [("Cloudflare", []), ("Google", []), ("Quad9", [])] 222
        [("dns:example.com:A",
          { domain := "example.com", ips := ["93.184.216.34"], timestamp := 111,
            recordType := "A" })]).1.error = none
    ∧ DNSChecker.kvGet (DNSChecker.checkDomain
          { domain := "example.com", recordType := some "A" }
          [("Cloudflare", []), ("Google", []), ("Quad9", [])] 222
          [("dns:example.com:A",
            { domain := "example.com", ips := ["93.184.216.34"], timestamp := 111,
              recordType := "A" })]).2 "dns:example.com:A"
        ≠ some { domain := "example.com", ips := ["93.184.216.34"], timestamp := 111,
                 recordType := "A" } := by
  decide

/-- C1 (amended): with every resolver list empty and a good (non-empty)
stored record, `checkDomain` returns `hasChanged = true` and empty current
values, but with no `error` set, and it overwrites the stored history record
with an empty-values record. -/
theorem c1_all_resolver_failure (config : DNSChecker.DomainConfig)
    (rr : DNSChecker.ResolverResults) (ts : Nat) (kv : DNSChecker.KV)
    (r : DNSChecker.DNSRecord)
    (hall : ∀ p ∈ rr, p.2 = [])
    (h : DNSChecker.kvGet kv (DNSChecker.kvKeyOf config) = some r)
    (hne : r.ips ≠ []) :
    (DNSChecker.checkDomain config rr ts kv).1.error = none
    ∧ (DNSChecker.checkDomain config rr ts kv).1.hasChanged = true
    ∧ (DNSChecker.checkDomain config rr ts kv).1.currentIPs = []
    ∧ DNSChecker.kvGet (DNSChecker.checkDomain config rr ts kv).2 (DNSChecker.kvKeyOf config)
        = some { domain := config.domain, ips := [], timestamp := ts,
                 recordType := config.recordType.getD "A" } := by
  have hcur := DNSChecker.getMostCommonResult_all_empty hall
  rw [DNSChecker.kvKeyOf] at h
  have hmatch : DNSChecker.areIPsMatching (DNSChecker.getMostCommonResult rr) r.ips
      = false := by
    rw [hcur]
    cases hb : DNSChecker.areIPsMatching [] r.ips
    · rfl
    · exact absurd ((DNSChecker.areIPsMatching_iff_perm [] r.ips).mp hb).symm.eq_nil hne
  refine ⟨?_, ?_, ?_, ?_⟩
  · simp [DNSChecker.checkDomain]
  · rw [DNSChecker.checkDomain_hasChanged_of_previous h, hmatch]
    rfl
  · simp [DNSChecker.checkDomain, hcur]
  · simp [DNSChecker.checkDomain, DNSChecker.kvKeyOf, h, DNSChecker.kvGet_kvPut, hcur]

/-- Witness for the amended C1 at the concrete all-failure scenario. -/
theorem c1_all_resolver_failure_witness :
    (DNSChecker.checkDomain { domain := "example.com", recordType := some "A" }
        [("Cloudflare", []), ("Google", []), ("Quad9", [])] 222
        [("dns:example.com:A",
          { domain := "example.com", ips := ["93.184.216.34"], timestamp := 111,
            recordType := "A" })]).1.error = none
    ∧ (DNSChecker.checkDomain { domain := "example.com", recordType := some "A" }
        [("Cloudflare", []), ("Google", []), ("Quad9", [])] 222
        [("dns:example.com:A",
          { domain := "example.com", ips := ["93.184.216.34"], timestamp := 111,
            recordType := "A" })]).1.hasChanged = true
    ∧ (DNSChecker.checkDomain { domain := "example.com", recordType := some "A" }
        [("Cloudflare", []), ("Google", []), ("Quad9", [])] 222
        [("dns:example.com:A",
          { domain := "example.com", ips := ["93.184.216.34"], timestamp := 111,
            recordType := "A" })]).1.currentIPs = []
    ∧ DNSChecker.kvGet (DNSChecker.checkDomain
          { domain := "example.com", recordType := some "A" }
          [("Cloudflare", []), ("Google", []), ("Quad9", [])] 222
          [("dns:example.com:A",
            { domain := "example.com", ips := ["93.184.216.34"], timestamp := 111,
              recordType := "A" })]).2
        (DNSChecker.kvKeyOf { domain := "example.com", recordType := some "A" })
        = some { domain := "example.com", ips := [], timestamp := 222,
                 recordType := "A" } :=
  c1_all_resolver_failure { domain := "example.com", recordType := some "A" }
    [("Cloudflare", []), ("Google", []), ("Quad9", [])] 222
    [("dns:example.com:A",
      { domain := "example.com", ips := ["93.184.216.34"], timestamp := 111,
        recordType := "A" })]
    { domain := "example.com", ips := ["93.184.216.34"], timestamp := 111,
      recordType := "A" }
    (by decide) (by decide) (by decide)

/-- C2: consensus selection groups the non-empty lists by their
sorted-and-joined representation, returns the original-order list of the
group with the highest membership count, breaks ties in favour of the group
first encountered in resolver iteration order, and returns `[]` when every
resolver list is empty — i.e. it agrees with the specification-side
description `getMostCommonResultSpec`. -/
theorem c2_consensus_selection (rr : DNSChecker.ResolverResults) :
    DNSChecker.getMostCommonResult rr = DNSChecker.getMostCommonResultSpec rr :=
  DNSChecker.getMostCommonResult_eq_spec rr

/-- C3: discrepancy is false with fewer than two non-empty lists; with at
least two it holds exactly when some two non-empty lists differ as multisets;
and the verdict is invariant under permuting the values inside any resolver's
list. -/
theorem c3_discrepancy_multiset (rr : DNSChecker.ResolverResults) :
    (((rr.map Prod.snd).filter (fun ips => ips.length > 0)).length < 2 →
        DNSChecker.checkResolverDiscrepancy rr = false)
    ∧ (2 ≤ ((rr.map Prod.snd).filter (fun ips => ips.length > 0)).length →
        (DNSChecker.checkResolverDiscrepancy rr = true ↔
          ∃ l1 ∈ (rr.map Prod.snd).filter (fun ips => ips.length > 0),
            ∃ l2 ∈ (rr.map Prod.snd).filter (fun ips => ips.length > 0),
              ¬ l1.Perm l2))
    ∧ ∀ rr', DNSChecker.PermEquiv rr rr' →
        DNSChecker.checkResolverDiscrepancy rr = DNSChecker.checkResolverDiscrepancy rr' := by
  refine ⟨?_, ?_, fun rr' h => DNSChecker.checkResolverDiscrepancy_respects_perm h⟩
  · intro h
    unfold DNSChecker.checkResolverDiscrepancy
    by_cases h1 : (rr.map Prod.fst).length ≤ 1
    · rw [if_pos h1]
    · rw [if_neg h1, if_pos (by omega)]
  · intro h
    have hlen : 2 ≤ rr.length := by
      have h1 := List.length_filter_le (fun ips => decide (ips.length > 0))
        (rr.map Prod.snd)
      rw [List.length_map] at h1
      omega
    unfold DNSChecker.checkResolverDiscrepancy
    rw [if_neg (by rw [List.length_map]; omega), if_neg (by omega)]
    exact DNSChecker.adjacentMismatch_eq_true_iff _

/-- Witness for C3: two disagreeing resolvers trip the discrepancy flag, and
a single non-empty answer does not. -/
theorem c3_discrepancy_multiset_witness :
    DNSChecker.checkResolverDiscrepancy
        [("Cloudflare", ["1.1.1.1"]), ("Google", ["2.2.2.2"])] = true
    ∧ DNSChecker.checkResolverDiscrepancy
        [("Cloudflare", ["1.1.1.1"]), ("Google", [])] = false :=
  ⟨((c3_discrepancy_multiset [("Cloudflare", ["1.1.1.1"]), ("Google", ["2.2.2.2"])]).2.1
      (by decide)).mpr
    ⟨["1.1.1.1"], by decide, ["2.2.2.2"], by decide, by decide⟩,
   (c3_discrepancy_multiset [("Cloudflare", ["1.1.1.1"]), ("Google", [])]).1 (by decide)⟩

/-- C6 (counterexample): an address-record entry (kind 1) in the answer of a
CNAME query is returned, although the claim says every entry whose kind does
not match the requested type is discarded. -/
theorem c6_type_filter_counterexample :
    DNSChecker.resolveDomain "CNAME"
        { ok := true, status := 200, dnsStatus := 0,
          answer := some [{ type := 1, data := "93.184.216.34" }] }
      = Except.ok ["93.184.216.34"] := by
  rfl

/-- C6 (amended): on a successful response, `resolveDomain` keeps exactly the
address-record entries (kinds 1 and 28) regardless of the requested type,
plus alias entries (kind 5) when `recordType = CNAME` and nameserver entries
(kind 2) when `recordType = NS`; every other entry is discarded. -/
theorem c6_type_filter (recordType : String) (resp : DNSChecker.DoHResponse)
    (answers : List DNSChecker.DNSAnswer)
    (hok : resp.ok = true) (hst : resp.dnsStatus = 0) (hans : resp.answer = some answers) :
    DNSChecker.resolveDomain recordType resp
      = Except.ok ((answers.filter (DNSChecker.keepAnswer recordType)).map
          (fun a => a.data)) := by
  simp [DNSChecker.resolveDomain, hok, hst, hans, DNSChecker.extractAnswers_eq_filter]

/-- Witness for the amended C6: a CNAME query keeps the kind-1 and kind-5
entries and drops a kind-2 entry. -/
theorem c6_type_filter_witness :
    DNSChecker.resolveDomain "CNAME"
        { ok := true, status := 200, dnsStatus := 0,
          answer := some [{ type := 1, data := "93.184.216.34" },
                          { type := 5, data := "alias.example.net" },
                          { type := 2, data := "ns1.example.net" }] }
      = Except.ok ["93.184.216.34", "alias.example.net"] := by
  have h := c6_type_filter "CNAME"
    { ok := true, status := 200, dnsStatus := 0,
      answer := some [{ type := 1, data := "93.184.216.34" },
                      { type := 5, data := "alias.example.net" },
                      { type := 2, data := "ns1.example.net" }] }
    [{ type := 1, data := "93.184.216.34" },
     { type := 5, data := "alias.example.net" },
     { type := 2, data := "ns1.example.net" }]
    (by decide) (by decide) (by decide)
  rw [h]
  rfl

/-- C7: a failed resolver query contributes an empty list for that resolver
only, leaving every other resolver's entry untouched (the mapping is total —
no rejection escapes), and whenever exactly two non-empty answer lists
remain and they agree as multisets, the check reports no discrepancy and the
consensus values are the first agreeing list. -/
theorem c7_failure_isolation :
    (∀ (pre post : List (String × Except String (List String))) (name e : String),
        DNSChecker.resolveDomainMultiple (pre ++ (name, Except.error e) :: post)
          = DNSChecker.resolveDomainMultiple pre
            ++ (name, ([] : List String)) :: DNSChecker.resolveDomainMultiple post)
    ∧ (∀ (rr : DNSChecker.ResolverResults) (v w : List String),
        (rr.map Prod.snd).filter (fun ips => ips.length > 0) = [v, w] →
        DNSChecker.areIPsMatching v w = true →
        DNSChecker.checkResolverDiscrepancy rr = false
        ∧ DNSChecker.getMostCommonResult rr = v) := by
  constructor
  · intro pre post name e
    simp [DNSChecker.resolveDomainMultiple, List.map_append]
  · intro rr v w hfil hmatch
    constructor
    · unfold DNSChecker.checkResolverDiscrepancy
      by_cases h1 : (rr.map Prod.fst).length ≤ 1
      · rw [if_pos h1]
      · rw [if_neg h1, hfil, if_neg (by simp)]
        simp [DNSChecker.adjacentMismatch, hmatch]
    · have hsk : DNSChecker.sortKey w = DNSChecker.sortKey v := by
        have hs : jsSortStrings v = jsSortStrings w := by
          simp only [DNSChecker.areIPsMatching, Bool.and_eq_true, beq_iff_eq] at hmatch
          exact hmatch.2
        simp [DNSChecker.sortKey, hs]
      unfold DNSChecker.getMostCommonResult
      rw [hfil]
      rw [if_neg (by simp), if_neg (by simp)]
      simp [DNSChecker.buildCounts, DNSChecker.bump, hsk, DNSChecker.scanMax]

/-- Witness for C7: one of three resolvers fails while the other two agree
up to order; no discrepancy is reported and the agreeing set wins. -/
theorem c7_failure_isolation_witness :
    DNSChecker.resolveDomainMultiple
        [("Cloudflare", Except.error "timeout"),
         ("Google", Except.ok ["1.1.1.1", "2.2.2.2"]),
         ("Quad9", Except.ok ["2.2.2.2", "1.1.1.1"])]
      = [("Cloudflare", []), ("Google", ["1.1.1.1", "2.2.2.2"]),
         ("Quad9", ["2.2.2.2", "1.1.1.1"])]
    ∧ DNSChecker.checkResolverDiscrepancy
        [("Cloudflare", []), ("Google", ["1.1.1.1", "2.2.2.2"]),
         ("Quad9", ["2.2.2.2", "1.1.1.1"])] = false
    ∧ DNSChecker.getMostCommonResult
        [("Cloudflare", []), ("Google", ["1.1.1.1", "2.2.2.2"]),
         ("Quad9", ["2.2.2.2", "1.1.1.1"])] = ["1.1.1.1", "2.2.2.2"] := by
  refine ⟨?_, ?_, ?_⟩
  · exact c7_failure_isolation.1 []
      [("Google", Except.ok ["1.1.1.1", "2.2.2.2"]),
       ("Quad9", Except.ok ["2.2.2.2", "1.1.1.1"])] "Cloudflare" "timeout"
  · exact (c7_failure_isolation.2
      [("Cloudflare", []), ("Google", ["1.1.1.1", "2.2.2.2"]),
       ("Quad9", ["2.2.2.2", "1.1.1.1"])]
      ["1.1.1.1", "2.2.2.2"] ["2.2.2.2", "1.1.1.1"] (by decide) (by decide)).1
  · exact (c7_failure_isolation.2
      [("Cloudflare", []), ("Google", ["1.1.1.1", "2.2.2.2"]),
       ("Quad9", ["2.2.2.2", "1.1.1.1"])]
      ["1.1.1.1", "2.2.2.2"] ["2.2.2.2", "1.1.1.1"] (by decide) (by decide)).2

/-- C8: a private or loopback address short-circuits `analyzeIP`: no external
lookup of any kind is issued and the fixed "Private IP / Local Network"
analysis with `reputation.isClean = true` is returned. -/
theorem c8_private_ip_short_circuit (ip : String) (options : IPAnalyzer.AnalyzeOptions)
    (svc : IPAnalyzer.ExternalServices) (h : IPAnalyzer.isPrivateIP ip = true) :
    IPAnalyzer.analyzeIP ip options svc
      = ({ ip := ip,
           geolocation := some { country := some "Private IP",
                                 city := some "Local Network" },
           asn := none,
           reputation := some { isClean := true },
           reverseDns := none },
         ([] : List IPAnalyzer.Lookup)) := by
  simp [IPAnalyzer.analyzeIP, h]

/-- Witness for C8 at the loopback-net address `10.0.0.1` with all services
available. -/
theorem c8_private_ip_short_circuit_witness :
    IPAnalyzer.isPrivateIP "10.0.0.1" = true
    ∧ IPAnalyzer.analyzeIP "10.0.0.1" {}
        ⟨fun _ => some ({ country := some "France" }, { organization := some "X" }),
         fun _ => some { threatScore := some 90 },
         fun _ => some "host.example.net"⟩
      = ({ ip := "10.0.0.1",
           geolocation := some { country := some "Private IP",
                                 city := some "Local Network" },
           asn := none,
           reputation := some { isClean := true },
           reverseDns := none },
         ([] : List IPAnalyzer.Lookup)) :=
  ⟨by decide,
   c8_private_ip_short_circuit "10.0.0.1" {}
     ⟨fun _ => some ({ country := some "France" }, { organization := some "X" }),
      fun _ => some { threatScore := some 90 },
      fun _ => some "host.example.net"⟩ (by decide)⟩

/-- C9 (counterexample): one malicious current address alone scores 50, which
falls in the high band, not critical, and the recommendation is not the
"immediate action" one — the claim's unconditional `critical` verdict fails. -/
theorem c9_malicious_counterexample :
    (IPAnalyzer.assessRisk []
        [{ ip := "203.0.113.5",
           reputation := some { isClean := false, isMalicious := some true },
           reverseDns := some "host.example.com" }]).level = IPAnalyzer.RiskLevel.high
    ∧ (IPAnalyzer.assessRisk []
        [{ ip := "203.0.113.5",
           reputation := some { isClean := false, isMalicious := some true },
           reverseDns := some "host.example.com" }]).level ≠ IPAnalyzer.RiskLevel.critical
    ∧ (IPAnalyzer.assessRisk []
        [{ ip := "203.0.113.5",
           reputation := some { isClean := false, isMalicious := some true },
           reverseDns := some "host.example.com" }]).recommendation
        ≠ IPAnalyzer.criticalRecommendation := by
  decide

/-- C9 (amended): with exactly one current address flagged malicious, the
factors contain exactly one malicious-IP line (the +50 contribution forces
the score to at least 50), the level is `high` or `critical`, and the
recommendation is the "IMMEDIATE ACTION REQUIRED" one exactly when the level
is `critical` (i.e. when the other factors push the total to 80). -/
theorem c9_malicious_scoring (previous current : List IPAnalyzer.IPAnalysis)
    (h : (IPAnalyzer.maliciousIPs current).length = 1) :
    ((IPAnalyzer.assessRisk previous current).level = IPAnalyzer.RiskLevel.high
      ∨ (IPAnalyzer.assessRisk previous current).level = IPAnalyzer.RiskLevel.critical)
    ∧ (IPAnalyzer.assessRisk previous current).factors.countP
        IPAnalyzer.startsWithSiren = 1
    ∧ ((IPAnalyzer.assessRisk previous current).recommendation
          = IPAnalyzer.criticalRecommendation
        ↔ (IPAnalyzer.assessRisk previous current).level
          = IPAnalyzer.RiskLevel.critical) := by
  have hscore : 50 ≤ IPAnalyzer.riskScore previous current := by
    unfold IPAnalyzer.riskScore
    rw [h, if_pos (by norm_num : (1 : Nat) > 0)]
    split_ifs <;> omega
  have hcount : (IPAnalyzer.riskFactors previous current).countP
      IPAnalyzer.startsWithSiren = 1 := by
    unfold IPAnalyzer.riskFactors
    rw [h, if_pos (by norm_num : (1 : Nat) > 0)]
    split_ifs <;>
      simp [List.countP_append, List.countP_cons,
        IPAnalyzer.startsWithSiren_malLine, IPAnalyzer.startsWithSiren_geoLine,
        IPAnalyzer.startsWithSiren_riskyLine, IPAnalyzer.startsWithSiren_asnLine,
        IPAnalyzer.startsWithSiren_dnsLine]
  have hfne : ((IPAnalyzer.riskFactors previous current).length == 0) = false := by
    cases hf : IPAnalyzer.riskFactors previous current
    · rw [hf] at hcount
      simp at hcount
    · simp
  by_cases h80 : IPAnalyzer.riskScore previous current ≥ 80
  · refine ⟨Or.inr ?_, ?_, ?_⟩
    · simp [IPAnalyzer.assessRisk, h80]
    · simp [IPAnalyzer.assessRisk, hfne, hcount]
    · simp [IPAnalyzer.assessRisk, h80]
  · refine ⟨Or.inl ?_, ?_, ?_⟩
    · simp [IPAnalyzer.assessRisk, h80, hscore]
    · simp [IPAnalyzer.assessRisk, hfne, hcount]
    · have hlvl : (IPAnalyzer.assessRisk previous current).level
          = IPAnalyzer.RiskLevel.high := by
        simp [IPAnalyzer.assessRisk, h80, hscore]
      have hrec : (IPAnalyzer.assessRisk previous current).recommendation
          = IPAnalyzer.highRecommendation := by
        simp [IPAnalyzer.assessRisk, h80, hscore]
      rw [hlvl, hrec]
      exact iff_of_false (by decide) (by decide)

/-- Witness for the amended C9 at a concrete one-malicious-address input. -/
theorem c9_malicious_scoring_witness :
    ((IPAnalyzer.assessRisk []
        [{ ip := "203.0.113.5",
           reputation := some { isClean := false, isMalicious := some true },
           reverseDns := some "host.example.com" }]).level = IPAnalyzer.RiskLevel.high
      ∨ (IPAnalyzer.assessRisk []
        [{ ip := "203.0.113.5",
           reputation := some { isClean := false, isMalicious := some true },
           reverseDns := some "host.example.com" }]).level
          = IPAnalyzer.RiskLevel.critical)
    ∧ (IPAnalyzer.assessRisk []
        [{ ip := "203.0.113.5",
           reputation := some { isClean := false, isMalicious := some true },
           reverseDns := some "host.example.com" }]).factors.countP
        IPAnalyzer.startsWithSiren = 1
    ∧ ((IPAnalyzer.assessRisk []
        [{ ip := "203.0.113.5",
           reputation := some { isClean := false, isMalicious := some true },
           reverseDns := some "host.example.com" }]).recommendation
          = IPAnalyzer.criticalRecommendation
        ↔ (IPAnalyzer.assessRisk []
        [{ ip := "203.0.113.5",
           reputation := some { isClean := false, isMalicious := some true },
           reverseDns := some "host.example.com" }]).level
          = IPAnalyzer.RiskLevel.critical) :=
  c9_malicious_scoring []
    [{ ip := "203.0.113.5",
       reputation := some { isClean := false, isMalicious := some true },
       reverseDns := some "host.example.com" }]
    (by decide)

/-- C10: the static known-bad-prefix fallback of `getReputation` matches an
address against a listed range by comparing only the first two octets, so
every address sharing the first two octets with a listed range is reported
unclean and malicious with that range's category — including `185.220.0.1`,
which is flagged "TOR exit nodes" although it lies outside the proper CIDR
block `185.220.100.0/22`. -/
theorem c10_prefix_fallback :
    (∀ (ip : String) (p : String × String), p ∈ IPAnalyzer.suspiciousASNs →
        (jsSplit ip '.').take 2 = (jsSplit ((jsSplit p.1 '/').headD "") '.').take 2 →
        (IPAnalyzer.getReputation none ip).isClean = false
        ∧ (IPAnalyzer.getReputation none ip).isMalicious = some true
        ∧ p.2 ∈ (IPAnalyzer.getReputation none ip).categories.getD [])
    ∧ IPAnalyzer.checkKnownBadRanges "185.220.0.1" = ["TOR exit nodes"]
    ∧ IPAnalyzer.cidrContainsSpec "185.220.100.0/22" "185.220.0.1" = false
    ∧ IPAnalyzer.getReputation none "185.220.0.1"
        = { isClean := false, isMalicious := some true,
            categories := some ["TOR exit nodes"], source := some "local-checks" } := by
  refine ⟨?_, by decide, by decide, by decide⟩
  intro ip p hp htake
  have hmatch : IPAnalyzer.isIPInRange ip p.1 = true := by
    simp [IPAnalyzer.isIPInRange, htake]
  have hmem : p.2 ∈ IPAnalyzer.checkKnownBadRanges ip :=
    List.mem_map.mpr ⟨p, List.mem_filter.mpr ⟨hp, hmatch⟩, rfl⟩
  have hlen : 0 < (IPAnalyzer.checkKnownBadRanges ip).length :=
    List.length_pos.mpr (fun hh => by
      rw [hh] at hmem
      exact absurd hmem (List.not_mem_nil _))
  unfold IPAnalyzer.getReputation
  rw [if_pos hlen]
  exact ⟨rfl, rfl, by simpa using hmem⟩

/-- Witness for C10: `185.220.7.7` shares the octets `185.220` with the
listed TOR range and is flagged by the fallback. -/
theorem c10_prefix_fallback_witness :
    (IPAnalyzer.getReputation none "185.220.7.7").isClean = false
    ∧ (IPAnalyzer.getReputation none "185.220.7.7").isMalicious = some true
    ∧ "TOR exit nodes" ∈ (IPAnalyzer.getReputation none "185.220.7.7").categories.getD [] :=
  c10_prefix_fallback.1 "185.220.7.7" ("185.220.100.0/22", "TOR exit nodes")
    (by decide) (by decide)
